import Mathlib

/-!
Verification of the real-time audio capture and upload pipeline of the
ai-counselling repository.

Client side (src/app/components/VoiceCircle.tsx): a MediaRecorder fires
`ondataavailable` every cadence interval; the callback writes the newest
frame into a single pending slot (`pendingRef`) and, if the upload loop is
idle, starts `sendLoop`, which repeatedly takes the pending frame and
uploads it, dropping frames that fail.  We model this as an explicit state
machine: emissions and fetch completions are the events, and the state
mirrors the refs of the component (`seqRef`, `pendingRef`, the in-flight
request, `sendingRef`), plus two observation logs (`sent`, `emitted`) used
only to state ordering properties.

Server side (src/app/api/audio/route.ts and its bundled revisions): the
POST handler validates an uploaded frame, hashes it, writes it to S3 and
inserts a metadata document.  Each revision is embedded as a pure function
from a request and an environment (auth result, store behaviour, hash
oracle) to a response together with the ordered trace of durable effects.

Format negotiation (src/hooks/useAudioChunkUploader.tsx `pickAudioMime`)
is embedded as a function of the platform's `isTypeSupported` predicate.
-/

namespace AudioPipeline

/-- A MediaRecorder `dataavailable` event: an opaque payload identity, the
payload size in bytes (`ev.data.size`) and the wall-clock time `Date.now()`
observed by the callback. -/
structure EmitEv where
  blobId : Nat
  size : Nat
  tsMs : Nat
  deriving DecidableEq

/-- The client's `PendingFrame` (VoiceCircle.tsx lines 11-15): the blob, its
capture timestamp and its sequence number. -/
structure PendingFrame where
  blobId : Nat
  tsMs : Nat
  seq : Nat
  deriving DecidableEq

/-- State of the VoiceCircle capture/upload pipeline.  `seq` is `seqRef`,
`pending` is `pendingRef`, `inFlight` is the sequence number of the frame
currently handed to `fetch` (if any), `sending` is whether `sendingRef`
holds a live promise.  `sent` and `emitted` are ghost observation logs: the
sequence numbers handed to `fetch`, in order, and the sequence numbers
assigned by the capture callback, in order.  They record what happened and
are never read by the transition functions. -/
structure ClientState where
  seq : Nat
  pending : Option PendingFrame
  inFlight : Option Nat
  sending : Bool
  sent : List Nat
  emitted : List Nat
  deriving DecidableEq

/-- Outcome of one upload attempt: a success response, a non-success
response (`!res.ok`), or a network error thrown by `fetch`. -/
inductive Outcome where
  | ok
  | httpErr
  | netErr
  deriving DecidableEq

/-- An event of the client pipeline: a capture emission or the completion of
the in-flight upload. -/
inductive ClientEv where
  | emit (e : EmitEv)
  | complete (o : Outcome)
  deriving DecidableEq

/-- The head of one `sendLoop` iteration (VoiceCircle.tsx lines 88-100):
read `pendingRef`; if a frame is pending, take it (clear the slot) and start
its upload; otherwise exit the loop and go idle (`sendingRef` cleared). -/
def sendLoopIter (st : ClientState) : ClientState :=
  match st.pending with
  | some p =>
      { st with pending := none, inFlight := some p.seq, sending := true,
                sent := st.sent ++ [p.seq] }
  | none => { st with inFlight := none, sending := false }

/-- The `mr.ondataavailable` callback (VoiceCircle.tsx lines 49-59): events
with no data are ignored; otherwise the pending slot is unconditionally
overwritten with a fresh frame carrying the next sequence number, and if no
send loop is running one is started (which immediately takes the frame). -/
def ondataavailable (st : ClientState) (ev : EmitEv) : ClientState :=
  if ev.size = 0 then st
  else
    let st1 : ClientState :=
      { st with pending := some { blobId := ev.blobId, tsMs := ev.tsMs, seq := st.seq },
                seq := st.seq + 1,
                emitted := st.emitted ++ [st.seq] }
    if st.sending then st1 else sendLoopIter st1

/-- Completion of the awaited `fetch` inside `sendLoop` (VoiceCircle.tsx
lines 100-110).  On a success or a non-success response the loop logs and
continues with its next iteration.  On a thrown network error the exception
escapes the `while`, the `finally` block clears `sendingRef` and, if a frame
is pending, restarts the loop.  In every case the failed frame itself is
gone: it was removed from the slot before the upload began. -/
def sendLoopResume (st : ClientState) (o : Outcome) : ClientState :=
  match st.inFlight with
  | none => st
  | some _ =>
      match o with
      | .ok => sendLoopIter st
      | .httpErr => sendLoopIter st
      | .netErr =>
          match st.pending with
          | some _ => sendLoopIter { st with inFlight := none }
          | none => { st with inFlight := none, sending := false }

/-- One step of the client pipeline. -/
def step (st : ClientState) : ClientEv → ClientState
  | .emit e => ondataavailable st e
  | .complete o => sendLoopResume st o

/-- The state at the start of a capture session: `onstart` resets `seqRef`
to 0, nothing pending, nothing in flight. -/
def initClient : ClientState :=
  { seq := 0, pending := none, inFlight := none, sending := false, sent := [], emitted := [] }

/-- Inductive invariant of the client pipeline: the send log is strictly
increasing and below `seq`; a pending frame is newer than everything sent
and below `seq`; an in-flight frame is older than any pending frame;
`sendingRef` is non-null exactly while an upload is in flight; and the
emission log is exactly `0, 1, ..., seq - 1`. -/
def ClientInv (st : ClientState) : Prop :=
  st.sent.Pairwise (· < ·)
  ∧ (∀ x ∈ st.sent, x < st.seq)
  ∧ (∀ p, st.pending = some p → (∀ x ∈ st.sent, x < p.seq) ∧ p.seq < st.seq)
  ∧ (∀ f, st.inFlight = some f → f < st.seq ∧ ∀ p, st.pending = some p → f < p.seq)
  ∧ st.sending = st.inFlight.isSome
  ∧ st.emitted = List.range st.seq

/-- Digit-string to number: `some` of the value when every character is a
decimal digit (and the string is non-empty), otherwise `none`. -/
def digitsToNat (cs : List Char) : Option Nat :=
  if cs = [] then none
  else if cs.all (fun c => c.isDigit) then
    some (cs.foldl (fun a c => a * 10 + (c.toNat - 48)) 0)
  else none

/-- Model of the JavaScript `Number(s)` conversion as used by the route
handlers, restricted to the integer fragment: an optional-minus decimal
literal converts to its value, and any non-numeric string converts to NaN,
represented as `none`.  Non-integer numeric literals are outside the model;
the empty string never reaches a conversion because the falsy check
rejects it first. -/
def jsNumber (s : String) : Option Int :=
  match s.toList with
  | '-' :: rest => (digitsToNat rest).map (fun n => -(n : Int))
  | cs => (digitsToNat cs).map (fun n => (n : Int))

/-- JavaScript template-string rendering of a number: NaN prints as
`"NaN"`, integers print in decimal. -/
def numToString : Option Int → String
  | none => "NaN"
  | some i => toString i

/-- The uploaded multipart file part: its declared content type
(`file.type`, the empty string when none was declared) and its bytes. -/
structure FilePart where
  type : String
  bytes : List Nat
  deriving DecidableEq

/-- An ingestion request as seen by the handler after `req.formData()`:
`form.get('audio')` (already narrowed to a `File` or not), and the
`timestamp` and `frameNumber` fields as optional strings. -/
structure Req where
  file : Option FilePart
  timestamp : Option String
  frameNumber : Option String
  deriving DecidableEq

/-- JavaScript falsiness of `form.get(...)?.toString()`: `undefined` or the
empty string. -/
def falsy : Option String → Bool
  | none => true
  | some s => s.isEmpty

/-- The metadata document inserted by `insertAudioMeta` (src/db/audio.ts
`AudioFrameDoc`).  `frameNumber` and `ts_ms` are `none` when the JavaScript
value is NaN.  `created_at` is the insertion wall-clock time supplied by the
environment. -/
structure AudioFrameDoc where
  clerk_user_id : String
  frameNumber : Option Int
  ts_ms : Option Int
  mime : String
  bytes : Nat
  s3Key : String
  checksum : String
  created_at : Nat
  deriving DecidableEq

/-- Durable effects of one request, in program order.  `computeHash` marks
that the content digest was computed; `s3Put` and `metaInsert` record a
store write that succeeded.  A store operation that fails throws without
leaving an entry (both stores apply each single operation atomically). -/
inductive Effect where
  | computeHash
  | s3Put (key : String)
  | metaInsert (doc : AudioFrameDoc)
  deriving DecidableEq

/-- The possible responses of the route handlers across the bundled
revisions: the auth redirect, a JSON error with an HTTP status, the bare
success of route.ts, the success body of the part_002 revision, the success
body of the Number.isFinite revision, and an unhandled thrown exception
(which the surrounding framework turns into a 500). -/
inductive ApiResp where
  | redirect
  | jsonError (status : Nat) (error : String)
  | okSimple
  | okV2 (ok : Bool) (frameId : String) (s3Key : String)
  | okFin (ok : Bool) (key : String) (bytes : Nat)
  | thrown
  deriving DecidableEq

/-- Environment of one request: the Clerk auth result, whether each store
write succeeds, the id the metadata store assigns on success, the content
digest oracle (node:crypto sha256 hex), and the insertion wall-clock time. -/
structure Env where
  userId : Option String
  s3Ok : Bool
  insertOk : Bool
  insertedId : String
  hash : List Nat → String
  now : Nat

/-- The POST handler of src/app/api/audio/route.ts (webm-only revision):
auth, presence check, mime defaulting and webm-only check, 5 MiB size
check, sha256, S3 put under a deterministic key, metadata insert, bare
success body.  Store failures throw (no try/catch in this revision). -/
def POST_route (req : Req) (env : Env) : ApiResp × List Effect :=
  match env.userId with
  | none => (ApiResp.redirect, [])
  | some userId =>
      match req.file with
      | none => (ApiResp.jsonError 400 "Bad form data", [])
      | some file =>
          if falsy req.timestamp || falsy req.frameNumber then
            (ApiResp.jsonError 400 "Bad form data", [])
          else
            let buf := file.bytes
            let mime := if file.type = "" then "audio/webm" else file.type
            if mime ≠ "audio/webm" then (ApiResp.jsonError 415 "Unsupported mime", [])
            else if 5 * 1024 * 1024 < buf.length then
              (ApiResp.jsonError 413 "Frame too large", [])
            else
              let checksum := env.hash buf
              let frameNumber := jsNumber (req.frameNumber.getD "")
              let ts_ms := jsNumber (req.timestamp.getD "")
              let key := "users/" ++ userId ++ "/audio/webm/frame_" ++
                numToString frameNumber ++ "_" ++ numToString ts_ms ++ ".webm"
              if env.s3Ok = false then (ApiResp.thrown, [Effect.computeHash])
              else if env.insertOk = false then
                (ApiResp.thrown, [Effect.computeHash, Effect.s3Put key])
              else
                (ApiResp.okSimple,
                 [Effect.computeHash, Effect.s3Put key,
                  Effect.metaInsert
                    { clerk_user_id := userId, frameNumber := frameNumber, ts_ms := ts_ms,
                      mime := "audio/webm", bytes := buf.length, s3Key := key,
                      checksum := checksum, created_at := env.now }])

/-- The POST handler of the part_002 revision of src/app/api/audio/route.ts:
identical to the webm-only revision except that the allow-list is the
two-element set containing audio/webm and audio/mp4, the storage key
extension follows the mime, and the success body carries the inserted id
and the storage key. -/
def POST_v2 (req : Req) (env : Env) : ApiResp × List Effect :=
  match env.userId with
  | none => (ApiResp.redirect, [])
  | some userId =>
      match req.file with
      | none => (ApiResp.jsonError 400 "Bad form data", [])
      | some file =>
          if falsy req.timestamp || falsy req.frameNumber then
            (ApiResp.jsonError 400 "Bad form data", [])
          else
            let buf := file.bytes
            let mime := if file.type = "" then "audio/webm" else file.type
            if mime ≠ "audio/webm" ∧ mime ≠ "audio/mp4" then
              (ApiResp.jsonError 415 "Unsupported mime", [])
            else if 5 * 1024 * 1024 < buf.length then
              (ApiResp.jsonError 413 "Frame too large", [])
            else
              let checksum := env.hash buf
              let frameNumber := jsNumber (req.frameNumber.getD "")
              let ts_ms := jsNumber (req.timestamp.getD "")
              let ext := if mime = "audio/webm" then "webm" else "mp4"
              let key := "users/" ++ userId ++ "/audio/" ++ ext ++ "/frame_" ++
                numToString frameNumber ++ "_" ++ numToString ts_ms ++ "." ++ ext
              if env.s3Ok = false then (ApiResp.thrown, [Effect.computeHash])
              else if env.insertOk = false then
                (ApiResp.thrown, [Effect.computeHash, Effect.s3Put key])
              else
                (ApiResp.okV2 true env.insertedId key,
                 [Effect.computeHash, Effect.s3Put key,
                  Effect.metaInsert
                    { clerk_user_id := userId, frameNumber := frameNumber, ts_ms := ts_ms,
                      mime := mime, bytes := buf.length, s3Key := key,
                      checksum := checksum, created_at := env.now }])

/-- Lower-cased declared mime with the webm default, as computed by the
Number.isFinite revision (`rawMime`).  Lower-casing is modelled
character-wise, matching the per-character behaviour of the JavaScript
toLowerCase on these mime strings. -/
def finRawMime (file : FilePart) : String :=
  String.mk ((if file.type = "" then "audio/webm" else file.type).toList.map Char.toLower)

/-- The `isWebm` test of the Number.isFinite revision: rawMime starts with
"audio/webm" (prefix test modelled on the character list). -/
def finIsWebm (file : FilePart) : Bool :=
  "audio/webm".toList.isPrefixOf (finRawMime file).toList

/-- The `isMp4` test of the Number.isFinite revision: rawMime equals
"audio/mp4" or starts with "audio/mp4;". -/
def finIsMp4 (file : FilePart) : Bool :=
  (finRawMime file == "audio/mp4") || "audio/mp4;".toList.isPrefixOf (finRawMime file).toList

/-- The POST handler of the Number.isFinite revision (second document of
src/app/record/page.tsx): presence check, prefix-based mime check on the
lower-cased type, 5 MiB size check, Number.isFinite check on the converted
frameNumber and timestamp, sha256, S3 put, metadata insert; everything runs
inside a try/catch that maps any store failure to a 500 JSON error. -/
def POST_fin (req : Req) (env : Env) : ApiResp × List Effect :=
  match env.userId with
  | none => (ApiResp.redirect, [])
  | some userId =>
      match req.file with
      | none => (ApiResp.jsonError 400 "Bad form data", [])
      | some file =>
          if falsy req.timestamp || falsy req.frameNumber then
            (ApiResp.jsonError 400 "Bad form data", [])
          else if !(finIsWebm file) && !(finIsMp4 file) then
            (ApiResp.jsonError 415 ("Unsupported mime: " ++ finRawMime file), [])
          else
            let ext := if finIsWebm file then "webm" else "m4a"
            let contentType := if finIsWebm file then "audio/webm" else "audio/mp4"
            let buf := file.bytes
            if 5 * 1024 * 1024 < buf.length then
              (ApiResp.jsonError 413 "Frame too large", [])
            else
              let frameNumber := jsNumber (req.frameNumber.getD "")
              let ts_ms := jsNumber (req.timestamp.getD "")
              if frameNumber = none ∨ ts_ms = none then
                (ApiResp.jsonError 400 "Bad frameNumber/timestamp", [])
              else
                let checksum := env.hash buf
                let key := "users/" ++ userId ++ "/audio/" ++ ext ++ "/frame_" ++
                  numToString frameNumber ++ "_" ++ numToString ts_ms ++ "." ++ ext
                if env.s3Ok = false then
                  (ApiResp.jsonError 500 "Upload failed", [Effect.computeHash])
                else if env.insertOk = false then
                  (ApiResp.jsonError 500 "Upload failed",
                   [Effect.computeHash, Effect.s3Put key])
                else
                  (ApiResp.okFin true key buf.length,
                   [Effect.computeHash, Effect.s3Put key,
                    Effect.metaInsert
                      { clerk_user_id := userId, frameNumber := frameNumber, ts_ms := ts_ms,
                        mime := contentType, bytes := buf.length, s3Key := key,
                        checksum := checksum, created_at := env.now }])

/-- The ordered preference list of `pickAudioMime`
(src/hooks/useAudioChunkUploader.tsx lines 5-11). -/
def prefs : List String :=
  ["audio/webm;codecs=opus", "audio/webm", "audio/ogg;codecs=opus", "audio/ogg"]

/-- The loop of `pickAudioMime`: return the first entry the platform
supports; after exhausting the list return the literal fallback
"audio/webm". -/
def pickFrom (supported : String → Bool) : List String → String
  | [] => "audio/webm"
  | m :: rest => if supported m then m else pickFrom supported rest

/-- The `pickAudioMime` function, as a function of the platform's
`MediaRecorder.isTypeSupported` predicate. -/
def pickAudioMime (supported : String → Bool) : String :=
  pickFrom supported prefs

lemma sendLoopIter_inv (st : ClientState)
    (h1 : st.sent.Pairwise (· < ·))
    (h2 : ∀ x ∈ st.sent, x < st.seq)
    (h3 : ∀ p, st.pending = some p → (∀ x ∈ st.sent, x < p.seq) ∧ p.seq < st.seq)
    (h6 : st.emitted = List.range st.seq) :
    ClientInv (sendLoopIter st) := by
  cases hp : st.pending with
  | none =>
      simp only [ClientInv, sendLoopIter, hp]
      exact ⟨h1, h2, by simp [hp], by simp, by simp, h6⟩
  | some p =>
      obtain ⟨hps, hplt⟩ := h3 p hp
      simp only [ClientInv, sendLoopIter, hp]
      refine ⟨?_, ?_, by simp, ?_, by simp, h6⟩
      · refine List.pairwise_append.mpr ⟨h1, by simp, ?_⟩
        intro x hx y hy
        rw [List.mem_singleton] at hy
        subst hy
        exact hps x hx
      · intro x hx
        rcases List.mem_append.mp hx with hx | hx
        · exact h2 x hx
        · rw [List.mem_singleton] at hx
          omega
      · intro f hf
        rw [Option.some_inj] at hf
        subst hf
        exact ⟨hplt, by simp⟩

lemma ondataavailable_inv (st : ClientState) (ev : EmitEv) (h : ClientInv st) :
    ClientInv (ondataavailable st ev) := by
  obtain ⟨h1, h2, h3, h4, h5, h6⟩ := h
  unfold ondataavailable
  by_cases hz : ev.size = 0
  · rw [if_pos hz]
    exact ⟨h1, h2, h3, h4, h5, h6⟩
  · rw [if_neg hz]
    have h2' : ∀ x ∈ st.sent, x < st.seq + 1 := fun x hx => Nat.lt_succ_of_lt (h2 x hx)
    have h6' : st.emitted ++ [st.seq] = List.range (st.seq + 1) := by
      rw [h6, List.range_succ]
    by_cases hs : st.sending = true
    · rw [if_pos hs]
      refine ⟨h1, h2', ?_, ?_, hs.trans ?_, h6'⟩
      · intro p hp
        rw [Option.some_inj] at hp
        subst hp
        exact ⟨h2, Nat.lt_succ_self _⟩
      · intro f hf
        rcases h4 f hf with ⟨hf1, -⟩
        refine ⟨Nat.lt_succ_of_lt hf1, ?_⟩
        intro q hq
        rw [Option.some_inj] at hq
        subst hq
        exact hf1
      · rw [← h5, hs]
    · rw [if_neg hs]
      refine sendLoopIter_inv _ h1 h2' ?_ h6'
      intro p hp
      rw [Option.some_inj] at hp
      subst hp
      exact ⟨h2, Nat.lt_succ_self _⟩

lemma sendLoopResume_inv (st : ClientState) (o : Outcome) (h : ClientInv st) :
    ClientInv (sendLoopResume st o) := by
  obtain ⟨h1, h2, h3, h4, h5, h6⟩ := h
  unfold sendLoopResume
  cases hf : st.inFlight with
  | none => exact ⟨h1, h2, h3, h4, h5, h6⟩
  | some f =>
      cases o with
      | ok => exact sendLoopIter_inv st h1 h2 h3 h6
      | httpErr => exact sendLoopIter_inv st h1 h2 h3 h6
      | netErr =>
          cases hp : st.pending with
          | some p =>
              refine sendLoopIter_inv _ h1 h2 ?_ h6
              intro q hq
              rw [Option.some_inj] at hq
              subst hq
              exact h3 p hp
          | none => exact ⟨h1, h2, by simp, by simp, by simp, h6⟩

lemma step_inv (st : ClientState) (ev : ClientEv) (h : ClientInv st) : ClientInv (step st ev) := by
  cases ev with
  | emit e => exact ondataavailable_inv st e h
  | complete o => exact sendLoopResume_inv st o h

lemma run_inv (evs : List ClientEv) : ∀ st, ClientInv st → ClientInv (List.foldl step st evs) := by
  induction evs with
  | nil => intro st h; exact h
  | cons e evs ih => intro st h; exact ih _ (step_inv st e h)

lemma initClient_inv : ClientInv initClient := by
  unfold ClientInv initClient
  simp

lemma sublist_range_of_pairwise :
    ∀ l : List Nat, l.Pairwise (· < ·) → ∀ n : Nat, (∀ x ∈ l, x < n) → l.Sublist (List.range n) := by
  intro l
  induction l using List.reverseRecOn with
  | nil => intro _ n _; simp
  | append_singleton l a ih =>
      intro hp n hb
      rw [List.pairwise_append] at hp
      obtain ⟨hl, -, hla⟩ := hp
      have ha : a < n := hb a (by simp)
      have h1 : l.Sublist (List.range a) :=
        ih hl a (fun x hx => hla x hx a (by simp))
      have h2 : (l ++ [a]).Sublist (List.range a ++ [a]) :=
        h1.append (List.Sublist.refl [a])
      rw [← List.range_succ] at h2
      exact h2.trans (List.range_sublist.mpr ha)

/-- C3: in every trace of the capture/upload pipeline from a fresh session,
the sequence numbers actually handed to the sender form a sublist (ordered
subsequence) of the emitted sequence numbers, strictly increasing and
duplicate-free: no segment is sent twice, no two sends are reordered, and
gaps (dropped segments) are permitted. -/
theorem sent_subseq_emitted (evs : List ClientEv) :
    ((List.foldl step initClient evs).sent).Sublist ((List.foldl step initClient evs).emitted)
    ∧ ((List.foldl step initClient evs).sent).Pairwise (· < ·)
    ∧ ((List.foldl step initClient evs).sent).Nodup := by
  obtain ⟨h1, h2, h3, h4, h5, h6⟩ := run_inv evs initClient initClient_inv
  refine ⟨?_, h1, ?_⟩
  · rw [h6]
    exact sublist_range_of_pairwise _ h1 _ h2
  · exact h1.imp Nat.ne_of_lt

lemma ondataavailable_busy (st : ClientState) (ev : EmitEv)
    (hs : st.sending = true) (hz : 0 < ev.size) :
    ondataavailable st ev =
      { st with pending := some { blobId := ev.blobId, tsMs := ev.tsMs, seq := st.seq },
                seq := st.seq + 1, emitted := st.emitted ++ [st.seq] } := by
  have hz' : ¬ ev.size = 0 := by omega
  simp [ondataavailable, hz', hs]

/-- C1: newest-wins depth-1 queue.  For any busy uploader (so no take
intervenes) and any non-empty sequence of capture callbacks that write the
pending slot (positive data size), after the last offer the slot holds
exactly the most recently offered segment, carrying the next sequence
numbers in order; each offer overwrites whatever was pending, whatever it
was, and the slot (an Option) can never hold more than one segment. -/
theorem offer_newest_wins (es : List EmitEv) :
    ∀ (e : EmitEv) (st : ClientState),
      st.sending = true → (∀ x ∈ es, 0 < x.size) → 0 < e.size →
      (List.foldl ondataavailable st (es ++ [e])).pending =
        some { blobId := e.blobId, tsMs := e.tsMs, seq := st.seq + es.length } := by
  induction es with
  | nil =>
      intro e st hs _ hz
      simp [ondataavailable_busy st e hs hz]
  | cons a es ih =>
      intro e st hs hall hz
      rw [List.cons_append, List.foldl_cons, ondataavailable_busy st a hs (hall a (by simp))]
      have h := ih e
          { st with pending := some { blobId := a.blobId, tsMs := a.tsMs, seq := st.seq },
                    seq := st.seq + 1, emitted := st.emitted ++ [st.seq] }
          hs (fun x hx => hall x (by simp [hx])) hz
      have hlen : st.seq + (a :: es).length = st.seq + 1 + es.length := by
        rw [List.length_cons]; omega
      rw [hlen]
      exact h

/-- Witness for C1: from a busy state with sequence counter 2, two offers
land and the slot holds exactly the second one, with sequence number 3. -/
theorem offer_newest_wins_wit :
    (List.foldl ondataavailable
        { seq := 2, pending := some { blobId := 7, tsMs := 7, seq := 1 },
          inFlight := some 0, sending := true, sent := [0], emitted := [0, 1] }
        ([{ blobId := 10, size := 5, tsMs := 100 }] ++ [{ blobId := 11, size := 5, tsMs := 101 }])).pending =
      some { blobId := 11, tsMs := 101, seq := 3 } := by
  exact offer_newest_wins [⟨10, 5, 100⟩] ⟨11, 5, 101⟩ _ rfl (by decide) (by decide)

/-- C2: send-failure policy.  When the in-flight segment's upload fails,
either with a non-success response or with a thrown network error, the
uploader's next action is to check the pending slot: the slot is cleared,
the newly in-flight segment (if any) is exactly the one that was pending
and is strictly newer, and the failed segment is not handed to the sender
again (its count in the send log is unchanged; globally, the send log never
repeats a segment by `sent_subseq_emitted`). -/
theorem send_failure_discard (st : ClientState) (f : Nat) (o : Outcome)
    (hf : st.inFlight = some f)
    (ho : o = Outcome.httpErr ∨ o = Outcome.netErr)
    (hfp : ∀ p, st.pending = some p → f < p.seq) :
    (sendLoopResume st o).pending = none
    ∧ (sendLoopResume st o).inFlight = Option.map PendingFrame.seq st.pending
    ∧ ((sendLoopResume st o).sent).count f = st.sent.count f
    ∧ (∀ g, (sendLoopResume st o).inFlight = some g → f < g) := by
  have main : ∀ st' : ClientState, st'.pending = st.pending → st'.sent = st.sent →
      (sendLoopIter st').pending = none
      ∧ (sendLoopIter st').inFlight = Option.map PendingFrame.seq st.pending
      ∧ ((sendLoopIter st').sent).count f = st.sent.count f
      ∧ (∀ g, (sendLoopIter st').inFlight = some g → f < g) := by
    intro st' hpe hse
    cases hp : st.pending with
    | none =>
        have hpe' : st'.pending = none := hpe.trans hp
        refine ⟨?_, ?_, ?_, ?_⟩ <;> simp [sendLoopIter, hpe', hp, hse]
    | some p =>
        have hpe' : st'.pending = some p := hpe.trans hp
        have hne : p.seq ≠ f := Nat.ne_of_gt (hfp p hp)
        refine ⟨?_, ?_, ?_, ?_⟩
        · simp [sendLoopIter, hpe']
        · simp [sendLoopIter, hpe', hp]
        · simp only [sendLoopIter, hpe']
          rw [hse, List.count_append]
          simp [List.count_cons, hne, Ne.symm hne]
        · intro g hg
          simp only [sendLoopIter, hpe'] at hg
          rw [Option.some_inj] at hg
          subst hg
          exact hfp p hp
  unfold sendLoopResume
  rw [hf]
  rcases ho with rfl | rfl
  · exact main st rfl rfl
  · cases hp : st.pending with
    | some p =>
        have h := main { st with pending := some p, inFlight := none } hp.symm rfl
        rw [hp] at h
        exact h
    | none => exact ⟨rfl, rfl, rfl, by simp⟩

/-- Witness for C2: a concrete busy state whose in-flight segment 0 fails
with a network error; the pending segment 1 goes in flight and segment 0
is gone. -/
theorem send_failure_discard_wit :
    (sendLoopResume
        { seq := 2, pending := some { blobId := 9, tsMs := 9, seq := 1 },
          inFlight := some 0, sending := true, sent := [0], emitted := [0, 1] }
        Outcome.netErr).pending = none
    ∧ (sendLoopResume
        { seq := 2, pending := some { blobId := 9, tsMs := 9, seq := 1 },
          inFlight := some 0, sending := true, sent := [0], emitted := [0, 1] }
        Outcome.netErr).inFlight = some 1 := by
  have h := send_failure_discard
      { seq := 2, pending := some { blobId := 9, tsMs := 9, seq := 1 },
        inFlight := some 0, sending := true, sent := [0], emitted := [0, 1] }
      0 Outcome.netErr rfl (Or.inr rfl)
      (by intro p hp; rw [Option.some_inj] at hp; subst hp; decide)
  exact ⟨h.1, by simpa using h.2.1⟩

lemma pickFrom_first (s : String → Bool) :
    ∀ (l1 : List String) (m : String) (l2 : List String),
      (∀ x ∈ l1, s x = false) → s m = true → pickFrom s (l1 ++ m :: l2) = m := by
  intro l1
  induction l1 with
  | nil => intro m l2 _ hm; simp [pickFrom, hm]
  | cons a l ih =>
      intro m l2 h hm
      have ha : s a = false := h a (by simp)
      simp only [List.cons_append, pickFrom]
      rw [if_neg (by simp [ha])]
      exact ih m l2 (fun x hx => h x (by simp [hx])) hm

lemma pickFrom_fallback (s : String → Bool) :
    ∀ l : List String, (∀ x ∈ l, s x = false) → pickFrom s l = "audio/webm" := by
  intro l
  induction l with
  | nil => intro _; rfl
  | cons a l ih =>
      intro h
      simp only [pickFrom]
      rw [if_neg (by simp [h a (by simp)])]
      exact ih (fun x hx => h x (by simp [hx]))

lemma pickFrom_congr (s t : String → Bool) :
    ∀ l : List String, (∀ x ∈ l, s x = t x) → pickFrom s l = pickFrom t l := by
  intro l
  induction l with
  | nil => intro _; rfl
  | cons a l ih =>
      intro h
      simp only [pickFrom]
      rw [h a (by simp)]
      by_cases ht : t a = true
      · rw [if_pos ht, if_pos ht]
      · rw [if_neg ht, if_neg ht]
        exact ih (fun x hx => h x (by simp [hx]))

/-- C9 counterexample: on a platform supporting no format at all,
`pickAudioMime` returns the fixed default "audio/webm" (the second entry of
its preference list), not the last entry "audio/ogg" of the list, so the
claim's "falls back to the last entry" is false on the code. -/
theorem negotiate_fallback_cex :
    pickAudioMime (fun _ => false) = "audio/webm"
    ∧ List.getLastD prefs "" = "audio/ogg"
    ∧ pickAudioMime (fun _ => false) ≠ List.getLastD prefs "" := by
  refine ⟨rfl, rfl, ?_⟩
  decide

/-- C9 (amended): `pickAudioMime` is a deterministic pure function of the
platform's supported-format predicate: it returns the first entry of the
ordered preference list that the predicate supports, and when no entry of
the list is supported it returns the fixed default "audio/webm" (which is
the list's second entry, not its last); its result depends only on the
predicate's values on the preference list. -/
theorem negotiate_first_supported :
    (∀ (s : String → Bool) (l1 : List String) (m : String) (l2 : List String),
        prefs = l1 ++ m :: l2 → (∀ x ∈ l1, s x = false) → s m = true →
        pickAudioMime s = m)
    ∧ (∀ s : String → Bool, (∀ m ∈ prefs, s m = false) →
        pickAudioMime s = "audio/webm" ∧ prefs.get? 1 = some "audio/webm")
    ∧ (∀ s t : String → Bool, (∀ m ∈ prefs, s m = t m) →
        pickAudioMime s = pickAudioMime t) := by
  refine ⟨?_, ?_, ?_⟩
  · intro s l1 m l2 hpre h hm
    rw [pickAudioMime, hpre]
    exact pickFrom_first s l1 m l2 h hm
  · intro s h
    exact ⟨pickFrom_fallback s prefs h, rfl⟩
  · intro s t h
    exact pickFrom_congr s t prefs h

/-- Witness for the amended C9: a platform supporting only "audio/ogg"
gets "audio/ogg" (the first supported entry), and a platform supporting
nothing gets the default "audio/webm". -/
theorem negotiate_first_supported_wit :
    pickAudioMime (fun m => m == "audio/ogg") = "audio/ogg"
    ∧ pickAudioMime (fun _ => false) = "audio/webm" := by
  refine ⟨?_, ?_⟩
  · exact negotiate_first_supported.1 (fun m => m == "audio/ogg")
      ["audio/webm;codecs=opus", "audio/webm", "audio/ogg;codecs=opus"] "audio/ogg" []
      rfl (by decide) (by decide)
  · exact (negotiate_first_supported.2.1 (fun _ => false) (by decide)).1

/-- C4: MIME allow-list of the two-mime (part_002) revision of the
ingestion route.  An authenticated, well-formed request whose payload part
declares a type in the two-element allow-list (audio/webm, audio/mp4)
passes the media-type check, and one whose declared (non-empty) type is
outside the allow-list is rejected with the 415 unsupported-media error
with an empty effect trace: no object-store write and no metadata-store
write.  The earlier webm-only revision of route.ts allows audio/webm only. -/
theorem mime_allowlist_v2 (ftype : String) (fb : List Nat) (ts fr : String)
    (env : Env) (uid : String)
    (hu : env.userId = some uid)
    (hts : ts.isEmpty = false) (hfr : fr.isEmpty = false) :
    ((ftype = "audio/webm" ∨ ftype = "audio/mp4") →
      (POST_v2 { file := some { type := ftype, bytes := fb }, timestamp := some ts,
                 frameNumber := some fr } env).1 ≠ ApiResp.jsonError 415 "Unsupported mime")
    ∧ ((ftype ≠ "" ∧ ftype ≠ "audio/webm" ∧ ftype ≠ "audio/mp4") →
      (POST_v2 { file := some { type := ftype, bytes := fb }, timestamp := some ts,
                 frameNumber := some fr } env).1 = ApiResp.jsonError 415 "Unsupported mime"
      ∧ (POST_v2 { file := some { type := ftype, bytes := fb }, timestamp := some ts,
                   frameNumber := some fr } env).2 = []) := by
  constructor
  · rintro (rfl | rfl) <;>
      by_cases hsz : 5 * 1024 * 1024 < fb.length <;>
      by_cases hs3 : env.s3Ok = false <;>
      by_cases hins : env.insertOk = false <;>
      simp [POST_v2, hu, falsy, hts, hfr, hsz, hs3, hins]
  · rintro ⟨h1, h2, h3⟩
    have hm : (if ftype = "" then "audio/webm" else ftype) = ftype := if_neg h1
    constructor <;> simp [POST_v2, hu, falsy, hts, hfr, hm, h2, h3]

/-- Witness for C4: an audio/mp4 payload passes the media-type check of the
two-mime revision, and a text/plain payload is rejected with 415. -/
theorem mime_allowlist_v2_wit :
    (POST_v2 { file := some { type := "audio/mp4", bytes := [1, 2] }, timestamp := some "1",
               frameNumber := some "2" }
       { userId := some "u", s3Ok := true, insertOk := true, insertedId := "id0",
         hash := fun _ => "h", now := 0 }).1 ≠ ApiResp.jsonError 415 "Unsupported mime"
    ∧ (POST_v2 { file := some { type := "text/plain", bytes := [1, 2] }, timestamp := some "1",
                 frameNumber := some "2" }
       { userId := some "u", s3Ok := true, insertOk := true, insertedId := "id0",
         hash := fun _ => "h", now := 0 }).1 = ApiResp.jsonError 415 "Unsupported mime" := by
  constructor
  · exact (mime_allowlist_v2 "audio/mp4" [1, 2] "1" "2"
      { userId := some "u", s3Ok := true, insertOk := true, insertedId := "id0",
        hash := fun _ => "h", now := 0 } "u" rfl (by decide) (by decide)).1 (Or.inr rfl)
  · exact ((mime_allowlist_v2 "text/plain" [1, 2] "1" "2"
      { userId := some "u", s3Ok := true, insertOk := true, insertedId := "id0",
        hash := fun _ => "h", now := 0 } "u" rfl (by decide) (by decide)).2 (by decide)).1

/-- C6: size ceiling of the ingestion route (webm-only revision of
route.ts; the other revisions share the same size logic).  For an
authenticated, well-formed request that passed the media-type check, a
payload larger than 5242880 bytes is rejected with the 413 too-large error
and the effect trace is empty — in particular the content checksum was not
computed — while a payload at or below the ceiling passes the size check. -/
theorem size_ceiling (ftype : String) (fb : List Nat) (ts fr : String)
    (env : Env) (uid : String)
    (hu : env.userId = some uid)
    (hts : ts.isEmpty = false) (hfr : fr.isEmpty = false)
    (hm : ftype = "" ∨ ftype = "audio/webm") :
    (5242880 < fb.length →
      (POST_route { file := some { type := ftype, bytes := fb }, timestamp := some ts,
                    frameNumber := some fr } env).1 = ApiResp.jsonError 413 "Frame too large"
      ∧ (POST_route { file := some { type := ftype, bytes := fb }, timestamp := some ts,
                      frameNumber := some fr } env).2 = []
      ∧ Effect.computeHash ∉
          (POST_route { file := some { type := ftype, bytes := fb }, timestamp := some ts,
                        frameNumber := some fr } env).2)
    ∧ (fb.length ≤ 5242880 →
      (POST_route { file := some { type := ftype, bytes := fb }, timestamp := some ts,
                    frameNumber := some fr } env).1 ≠ ApiResp.jsonError 413 "Frame too large") := by
  have hmm : (if ftype = "" then "audio/webm" else ftype) = "audio/webm" := by
    rcases hm with rfl | rfl <;> simp
  constructor
  · intro hsz
    have hsz' : 5 * 1024 * 1024 < fb.length := by omega
    refine ⟨?_, ?_, ?_⟩ <;> simp [POST_route, hu, falsy, hts, hfr, hmm, hsz']
  · intro hsz
    have hsz' : ¬ (5 * 1024 * 1024 < fb.length) := by omega
    by_cases hs3 : env.s3Ok = false <;> by_cases hins : env.insertOk = false <;>
      simp [POST_route, hu, falsy, hts, hfr, hmm, hsz', hs3, hins]

/-- Witness for C6: a 5242881-byte payload is rejected with 413 and a
1-byte payload passes the size check. -/
theorem size_ceiling_wit :
    (POST_route { file := some { type := "audio/webm", bytes := List.replicate 5242881 0 },
                  timestamp := some "1", frameNumber := some "2" }
       { userId := some "u", s3Ok := true, insertOk := true, insertedId := "id0",
         hash := fun _ => "h", now := 0 }).1 = ApiResp.jsonError 413 "Frame too large"
    ∧ (POST_route { file := some { type := "audio/webm", bytes := [1] },
                    timestamp := some "1", frameNumber := some "2" }
       { userId := some "u", s3Ok := true, insertOk := true, insertedId := "id0",
         hash := fun _ => "h", now := 0 }).1 ≠ ApiResp.jsonError 413 "Frame too large" := by
  constructor
  · exact ((size_ceiling "audio/webm" (List.replicate 5242881 0) "1" "2"
      { userId := some "u", s3Ok := true, insertOk := true, insertedId := "id0",
        hash := fun _ => "h", now := 0 } "u" rfl
      (by decide) (by decide) (Or.inr rfl)).1 (by rw [List.length_replicate]; omega)).1
  · exact (size_ceiling "audio/webm" [1] "1" "2"
      { userId := some "u", s3Ok := true, insertOk := true, insertedId := "id0",
        hash := fun _ => "h", now := 0 } "u" rfl
      (by decide) (by decide) (Or.inr rfl)).2 (by simp)

/-- C7: blob-before-metadata atomicity of route.ts.  For an accepted
segment (authenticated, well-formed, allowed mime, within the size
ceiling): if the object-store write fails, the effect trace contains no
store write at all (in particular no metadata-without-blob state); if the
metadata write fails after a successful blob write, the trace holds exactly
the hash and the blob write — at most an orphaned blob; and on full
success the metadata record is written exactly once, strictly after the
object-store write, referencing the blob's storage key. -/
theorem blob_before_meta (ftype : String) (fb : List Nat) (ts fr : String)
    (env : Env) (uid : String)
    (hu : env.userId = some uid)
    (hts : ts.isEmpty = false) (hfr : fr.isEmpty = false)
    (hm : ftype = "" ∨ ftype = "audio/webm")
    (hsz : fb.length ≤ 5 * 1024 * 1024) :
    (env.s3Ok = false →
      (POST_route { file := some { type := ftype, bytes := fb }, timestamp := some ts,
                    frameNumber := some fr } env).2 = [Effect.computeHash])
    ∧ (env.s3Ok = true → env.insertOk = false →
      ∃ k, (POST_route { file := some { type := ftype, bytes := fb }, timestamp := some ts,
                         frameNumber := some fr } env).2
        = [Effect.computeHash, Effect.s3Put k])
    ∧ (env.s3Ok = true → env.insertOk = true →
      ∃ k d, (POST_route { file := some { type := ftype, bytes := fb }, timestamp := some ts,
                           frameNumber := some fr } env).2
        = [Effect.computeHash, Effect.s3Put k, Effect.metaInsert d]
        ∧ d.s3Key = k ∧ d.mime = "audio/webm") := by
  have hmm : (if ftype = "" then "audio/webm" else ftype) = "audio/webm" := by
    rcases hm with rfl | rfl <;> simp
  have hsz' : ¬ (5 * 1024 * 1024 < fb.length) := by omega
  refine ⟨?_, ?_, ?_⟩
  · intro hs3
    simp [POST_route, hu, falsy, hts, hfr, hmm, hsz', hs3]
  · intro hs3 hins
    refine ⟨"users/" ++ uid ++ "/audio/webm/frame_" ++ numToString (jsNumber fr) ++ "_" ++
      numToString (jsNumber ts) ++ ".webm", ?_⟩
    simp [POST_route, hu, falsy, hts, hfr, hmm, hsz', hs3, hins]
  · intro hs3 hins
    refine ⟨"users/" ++ uid ++ "/audio/webm/frame_" ++ numToString (jsNumber fr) ++ "_" ++
        numToString (jsNumber ts) ++ ".webm",
      { clerk_user_id := uid, frameNumber := jsNumber fr, ts_ms := jsNumber ts,
        mime := "audio/webm", bytes := fb.length,
        s3Key := "users/" ++ uid ++ "/audio/webm/frame_" ++ numToString (jsNumber fr) ++ "_" ++
          numToString (jsNumber ts) ++ ".webm",
        checksum := env.hash fb, created_at := env.now }, ?_, rfl, rfl⟩
    simp [POST_route, hu, falsy, hts, hfr, hmm, hsz', hs3, hins]

/-- Witness for C7: with a concrete accepted request, a failing metadata
store leaves exactly the hash and blob-write effects, and a failing object
store leaves only the hash. -/
theorem blob_before_meta_wit :
    (∃ k, (POST_route { file := some { type := "audio/webm", bytes := [1, 2] },
                        timestamp := some "1", frameNumber := some "2" }
        { userId := some "u", s3Ok := true, insertOk := false, insertedId := "id0",
          hash := fun _ => "h", now := 0 }).2 = [Effect.computeHash, Effect.s3Put k])
    ∧ (POST_route { file := some { type := "audio/webm", bytes := [1, 2] },
                    timestamp := some "1", frameNumber := some "2" }
        { userId := some "u", s3Ok := false, insertOk := true, insertedId := "id0",
          hash := fun _ => "h", now := 0 }).2 = [Effect.computeHash] := by
  constructor
  · exact (blob_before_meta "audio/webm" [1, 2] "1" "2"
      { userId := some "u", s3Ok := true, insertOk := false, insertedId := "id0",
        hash := fun _ => "h", now := 0 } "u" rfl
      (by decide) (by decide) (Or.inr rfl) (by decide)).2.1 rfl rfl
  · exact (blob_before_meta "audio/webm" [1, 2] "1" "2"
      { userId := some "u", s3Ok := false, insertOk := true, insertedId := "id0",
        hash := fun _ => "h", now := 0 } "u" rfl
      (by decide) (by decide) (Or.inr rfl) (by decide)).1 rfl

/-- C8: success response shape of the part_002 revision.  For every
accepted request whose store writes succeed, the response is the success
body carrying ok equal to true, the store-assigned record identifier, and
the storage key under which the payload was written (that key appears as
the object-store write of the effect trace).  The earlier webm-only
revision of route.ts returns a bare ok-only body. -/
theorem success_response_shape (ftype : String) (fb : List Nat) (ts fr : String)
    (env : Env) (uid : String)
    (hu : env.userId = some uid)
    (hts : ts.isEmpty = false) (hfr : fr.isEmpty = false)
    (hm : ftype = "" ∨ ftype = "audio/webm" ∨ ftype = "audio/mp4")
    (hsz : fb.length ≤ 5 * 1024 * 1024)
    (hs3 : env.s3Ok = true) (hins : env.insertOk = true) :
    ∃ k, (POST_v2 { file := some { type := ftype, bytes := fb }, timestamp := some ts,
                    frameNumber := some fr } env).1 = ApiResp.okV2 true env.insertedId k
      ∧ Effect.s3Put k ∈
          (POST_v2 { file := some { type := ftype, bytes := fb }, timestamp := some ts,
                     frameNumber := some fr } env).2 := by
  have hsz' : ¬ (5 * 1024 * 1024 < fb.length) := by omega
  rcases hm with rfl | rfl | rfl
  · refine ⟨"users/" ++ uid ++ "/audio/" ++ "webm" ++ "/frame_" ++ numToString (jsNumber fr) ++
      "_" ++ numToString (jsNumber ts) ++ "." ++ "webm", ?_, ?_⟩ <;>
      simp [POST_v2, hu, falsy, hts, hfr, hsz', hs3, hins]
  · refine ⟨"users/" ++ uid ++ "/audio/" ++ "webm" ++ "/frame_" ++ numToString (jsNumber fr) ++
      "_" ++ numToString (jsNumber ts) ++ "." ++ "webm", ?_, ?_⟩ <;>
      simp [POST_v2, hu, falsy, hts, hfr, hsz', hs3, hins]
  · refine ⟨"users/" ++ uid ++ "/audio/" ++ "mp4" ++ "/frame_" ++ numToString (jsNumber fr) ++
      "_" ++ numToString (jsNumber ts) ++ "." ++ "mp4", ?_, ?_⟩ <;>
      simp [POST_v2, hu, falsy, hts, hfr, hsz', hs3, hins]

/-- Witness for C8: a concrete accepted webm request gets the okV2 body
with the store-assigned id. -/
theorem success_response_shape_wit :
    ∃ k, (POST_v2 { file := some { type := "audio/webm", bytes := [1, 2] },
                    timestamp := some "1", frameNumber := some "2" }
        { userId := some "u", s3Ok := true, insertOk := true, insertedId := "id0",
          hash := fun _ => "h", now := 0 }).1 = ApiResp.okV2 true "id0" k
      ∧ Effect.s3Put k ∈
          (POST_v2 { file := some { type := "audio/webm", bytes := [1, 2] },
                     timestamp := some "1", frameNumber := some "2" }
            { userId := some "u", s3Ok := true, insertOk := true, insertedId := "id0",
              hash := fun _ => "h", now := 0 }).2 := by
  exact success_response_shape "audio/webm" [1, 2] "1" "2"
      { userId := some "u", s3Ok := true, insertOk := true, insertedId := "id0",
        hash := fun _ => "h", now := 0 } "u" rfl
      (by decide) (by decide) (Or.inr (Or.inl rfl)) (by decide) rfl rfl

/-- C10 (implicit): a payload part with no declared content type (empty
string) is given the default type audio/webm by route.ts, so the request
passes the media-type check (it is never answered with 415) and, when it is
otherwise accepted and the stores succeed, it is processed as a webm
segment: the inserted metadata record carries mime audio/webm. -/
theorem empty_mime_default (fb : List Nat) (ts fr : String)
    (env : Env) (uid : String)
    (hu : env.userId = some uid)
    (hts : ts.isEmpty = false) (hfr : fr.isEmpty = false) :
    ((POST_route { file := some { type := "", bytes := fb }, timestamp := some ts,
                   frameNumber := some fr } env).1 ≠ ApiResp.jsonError 415 "Unsupported mime")
    ∧ (fb.length ≤ 5 * 1024 * 1024 → env.s3Ok = true → env.insertOk = true →
        (POST_route { file := some { type := "", bytes := fb }, timestamp := some ts,
                      frameNumber := some fr } env).1 = ApiResp.okSimple
        ∧ ∃ k d, (POST_route { file := some { type := "", bytes := fb }, timestamp := some ts,
                               frameNumber := some fr } env).2
            = [Effect.computeHash, Effect.s3Put k, Effect.metaInsert d]
            ∧ d.mime = "audio/webm") := by
  constructor
  · by_cases hsz : 5 * 1024 * 1024 < fb.length <;>
      by_cases hs3 : env.s3Ok = false <;>
      by_cases hins : env.insertOk = false <;>
      simp [POST_route, hu, falsy, hts, hfr, hsz, hs3, hins]
  · intro hsz hs3 hins
    have hsz' : ¬ (5 * 1024 * 1024 < fb.length) := by omega
    constructor
    · simp [POST_route, hu, falsy, hts, hfr, hsz', hs3, hins]
    · refine ⟨"users/" ++ uid ++ "/audio/webm/frame_" ++ numToString (jsNumber fr) ++ "_" ++
          numToString (jsNumber ts) ++ ".webm",
        { clerk_user_id := uid, frameNumber := jsNumber fr, ts_ms := jsNumber ts,
          mime := "audio/webm", bytes := fb.length,
          s3Key := "users/" ++ uid ++ "/audio/webm/frame_" ++ numToString (jsNumber fr) ++ "_" ++
            numToString (jsNumber ts) ++ ".webm",
          checksum := env.hash fb, created_at := env.now }, ?_, rfl⟩
      simp [POST_route, hu, falsy, hts, hfr, hsz', hs3, hins]

/-- Witness for C10: a concrete request with an empty declared type is
accepted and its metadata records mime audio/webm. -/
theorem empty_mime_default_wit :
    (POST_route { file := some { type := "", bytes := [1] }, timestamp := some "1",
                  frameNumber := some "2" }
        { userId := some "u", s3Ok := true, insertOk := true, insertedId := "id0",
          hash := fun _ => "h", now := 0 }).1 ≠ ApiResp.jsonError 415 "Unsupported mime"
    ∧ (POST_route { file := some { type := "", bytes := [1] }, timestamp := some "1",
                    frameNumber := some "2" }
        { userId := some "u", s3Ok := true, insertOk := true, insertedId := "id0",
          hash := fun _ => "h", now := 0 }).1 = ApiResp.okSimple := by
  constructor
  · exact (empty_mime_default [1] "1" "2"
      { userId := some "u", s3Ok := true, insertOk := true, insertedId := "id0",
        hash := fun _ => "h", now := 0 } "u" rfl (by decide) (by decide)).1
  · exact ((empty_mime_default [1] "1" "2"
      { userId := some "u", s3Ok := true, insertOk := true, insertedId := "id0",
        hash := fun _ => "h", now := 0 } "u" rfl (by decide) (by decide)).2
      (by decide) rfl rfl).1

/-- C5 counterexample: the claim says a request whose frameNumber is
non-numeric is answered with the 400 MalformedRequest error and causes no
store write.  On route.ts an authenticated request with frameNumber "abc"
(which converts to NaN) and a valid payload is accepted: the response is
the plain success body, writes do occur, and no 400 is returned — the
handler checks only presence, never numericity. -/
theorem malformed_validation_cex :
    jsNumber "abc" = none
    ∧ (POST_route { file := some { type := "", bytes := [1] }, timestamp := some "1",
                    frameNumber := some "abc" }
        { userId := some "u", s3Ok := true, insertOk := true, insertedId := "id0",
          hash := fun _ => "h", now := 0 }).1 = ApiResp.okSimple
    ∧ (POST_route { file := some { type := "", bytes := [1] }, timestamp := some "1",
                    frameNumber := some "abc" }
        { userId := some "u", s3Ok := true, insertOk := true, insertedId := "id0",
          hash := fun _ => "h", now := 0 }).2 ≠ []
    ∧ (POST_route { file := some { type := "", bytes := [1] }, timestamp := some "1",
                    frameNumber := some "abc" }
        { userId := some "u", s3Ok := true, insertOk := true, insertedId := "id0",
          hash := fun _ => "h", now := 0 }).1 ≠ ApiResp.jsonError 400 "Bad form data"
    ∧ (POST_route { file := some { type := "", bytes := [1] }, timestamp := some "1",
                    frameNumber := some "abc" }
        { userId := some "u", s3Ok := true, insertOk := true, insertedId := "id0",
          hash := fun _ => "h", now := 0 }).1 ≠ ApiResp.jsonError 400 "Bad frameNumber/timestamp" := by
  refine ⟨by decide, by decide, by decide, by decide, by decide⟩

/-- C5 (amended): a request with a missing payload, timestamp or
frameNumber is answered with the 400 MalformedRequest error and no store
write, in both the route.ts revision and the Number.isFinite revision.  A
non-numeric frameNumber or timestamp is rejected with 400 only by the
Number.isFinite revision, and there only after the media-type and size
checks pass (those checks run first); the route.ts and part_002 revisions
perform no numeric check at all and accept such a request, storing NaN. -/
theorem malformed_validation_amended :
    (∀ (req : Req) (env : Env) (uid : String), env.userId = some uid →
        (req.file = none ∨ falsy req.timestamp = true ∨ falsy req.frameNumber = true) →
        (POST_route req env).1 = ApiResp.jsonError 400 "Bad form data"
        ∧ (POST_route req env).2 = [])
    ∧ (∀ (req : Req) (env : Env) (uid : String), env.userId = some uid →
        (req.file = none ∨ falsy req.timestamp = true ∨ falsy req.frameNumber = true) →
        (POST_fin req env).1 = ApiResp.jsonError 400 "Bad form data"
        ∧ (POST_fin req env).2 = [])
    ∧ (∀ (ftype : String) (fb : List Nat) (ts fr : String) (env : Env) (uid : String),
        env.userId = some uid → ts.isEmpty = false → fr.isEmpty = false →
        (finIsWebm { type := ftype, bytes := fb } = true
          ∨ finIsMp4 { type := ftype, bytes := fb } = true) →
        fb.length ≤ 5 * 1024 * 1024 →
        (jsNumber fr = none ∨ jsNumber ts = none) →
        (POST_fin { file := some { type := ftype, bytes := fb }, timestamp := some ts,
                    frameNumber := some fr } env).1
          = ApiResp.jsonError 400 "Bad frameNumber/timestamp"
        ∧ (POST_fin { file := some { type := ftype, bytes := fb }, timestamp := some ts,
                      frameNumber := some fr } env).2 = [])
    ∧ (∀ (fb : List Nat) (ts fr : String) (env : Env) (uid : String),
        env.userId = some uid → ts.isEmpty = false → fr.isEmpty = false →
        fb.length ≤ 5 * 1024 * 1024 → env.s3Ok = true → env.insertOk = true →
        jsNumber fr = none →
        (POST_route { file := some { type := "", bytes := fb }, timestamp := some ts,
                      frameNumber := some fr } env).1 = ApiResp.okSimple) := by
  refine ⟨?_, ?_, ?_, ?_⟩
  · intro req env uid hu hmiss
    obtain ⟨f, t, n⟩ := req
    cases f with
    | none => constructor <;> simp [POST_route, hu]
    | some fp =>
        rcases hmiss with hf | ht | hn
        · simp at hf
        · constructor <;> simp [POST_route, hu, ht]
        · constructor <;> simp [POST_route, hu, hn]
  · intro req env uid hu hmiss
    obtain ⟨f, t, n⟩ := req
    cases f with
    | none => constructor <;> simp [POST_fin, hu]
    | some fp =>
        rcases hmiss with hf | ht | hn
        · simp at hf
        · constructor <;> simp [POST_fin, hu, ht]
        · constructor <;> simp [POST_fin, hu, hn]
  · intro ftype fb ts fr env uid hu hts hfr hmime hsz hnum
    have hsz' : ¬ (5 * 1024 * 1024 < fb.length) := by omega
    rcases hmime with hw | hm4
    · rcases hnum with hn | hn <;>
        constructor <;> simp [POST_fin, hu, falsy, hts, hfr, hw, hsz', hn]
    · rcases hnum with hn | hn <;>
        constructor <;> simp [POST_fin, hu, falsy, hts, hfr, hm4, hsz', hn]
  · intro fb ts fr env uid hu hts hfr hsz hs3 hins hn
    have hsz' : ¬ (5 * 1024 * 1024 < fb.length) := by omega
    simp [POST_route, hu, falsy, hts, hfr, hsz', hs3, hins]

/-- Witness for the amended C5: a request missing its timestamp gets 400
from both revisions; frameNumber "abc" on a valid webm payload gets 400
from the Number.isFinite revision and gets accepted by route.ts. -/
theorem malformed_validation_amended_wit :
    (POST_route { file := some { type := "", bytes := [1] }, timestamp := none,
                  frameNumber := some "2" }
        { userId := some "u", s3Ok := true, insertOk := true, insertedId := "id0",
          hash := fun _ => "h", now := 0 }).1 = ApiResp.jsonError 400 "Bad form data"
    ∧ (POST_fin { file := some { type := "", bytes := [1] }, timestamp := none,
                  frameNumber := some "2" }
        { userId := some "u", s3Ok := true, insertOk := true, insertedId := "id0",
          hash := fun _ => "h", now := 0 }).1 = ApiResp.jsonError 400 "Bad form data"
    ∧ (POST_fin { file := some { type := "audio/webm", bytes := [1] }, timestamp := some "1",
                  frameNumber := some "abc" }
        { userId := some "u", s3Ok := true, insertOk := true, insertedId := "id0",
          hash := fun _ => "h", now := 0 }).1 = ApiResp.jsonError 400 "Bad frameNumber/timestamp"
    ∧ (POST_route { file := some { type := "", bytes := [1] }, timestamp := some "1",
                    frameNumber := some "abc" }
        { userId := some "u", s3Ok := true, insertOk := true, insertedId := "id0",
          hash := fun _ => "h", now := 0 }).1 = ApiResp.okSimple := by
  refine ⟨?_, ?_, ?_, ?_⟩
  · exact (malformed_validation_amended.1
      { file := some { type := "", bytes := [1] }, timestamp := none, frameNumber := some "2" }
      { userId := some "u", s3Ok := true, insertOk := true, insertedId := "id0",
        hash := fun _ => "h", now := 0 } "u" rfl (Or.inr (Or.inl rfl))).1
  · exact (malformed_validation_amended.2.1
      { file := some { type := "", bytes := [1] }, timestamp := none, frameNumber := some "2" }
      { userId := some "u", s3Ok := true, insertOk := true, insertedId := "id0",
        hash := fun _ => "h", now := 0 } "u" rfl (Or.inr (Or.inl rfl))).1
  · exact (malformed_validation_amended.2.2.1 "audio/webm" [1] "1" "abc"
      { userId := some "u", s3Ok := true, insertOk := true, insertedId := "id0",
        hash := fun _ => "h", now := 0 } "u" rfl (by decide) (by decide)
      (Or.inl (by decide)) (by decide) (Or.inl (by decide))).1
  · exact malformed_validation_amended.2.2.2 [1] "1" "abc"
      { userId := some "u", s3Ok := true, insertOk := true, insertedId := "id0",
        hash := fun _ => "h", now := 0 } "u" rfl (by decide) (by decide)
      (by decide) rfl rfl (by decide)

end AudioPipeline
